import Mathlib

/-!
Verification of the optic fibre loss-simulation scripts.

The repository is a collection of near-identical Python scripts that model
signal loss in an optical fibre.  The algorithmic core of each script is a
handful of pure numeric functions; the GUI and plotting glue is out of scope.
This file is a shallow embedding of those numeric functions, organised by
source file (namespaces Sim1, Sim2, Sim3, Sim4, Sim8, Sim12, Sim13), followed
by theorems settling the behavioural claims about them.

Conventions used throughout:
* all formulas in the source are exact rational arithmetic except where a
  transcendental function (arctan, sin, exp, non-integer power) appears, so
  rational-only functions are embedded over ℚ and the rest over ℝ;
* a NumPy draw `np.random.normal(0, s)` is modelled as `s * z` where `z` is
  the corresponding standard-normal sample, passed in explicitly so that a
  statement can quantify over every possible draw;
* Lean's total division `x / 0 = 0` stands in for Python's float division;
  the Python code raises ZeroDivisionError on a zero divisor, and every
  theorem below that touches a quotient either fixes a nonzero divisor or
  assumes it positive, so the divergent case is never exercised.
-/

/-- Measurement-noise application, the pattern `value + np.random.normal(0,
relative_std * value)` shared by sim8.py line 75, sim2.py line 96, sim4.py
line 55 and sim13.py line 122.  `z` is the standard-normal sample, so the
added noise is `relative_std * value * z`. -/
def apply_noise (signal relative_std z : ℝ) : ℝ :=
  signal + relative_std * signal * z

namespace Sim1

/-- Translated from sim1.py lines 5-16 (`calculate_numerical_aperture`).
The Python body performs no validation: it computes
`theta = arctan(D / (2*b))`, `NA = sin(theta)` and returns
`(degrees(theta), NA)` for any inputs.  The only way it can fail is the
float division `D / (2*b)` raising ZeroDivisionError when `b = 0`, which is
modelled by the `none` branch; every other input, including non-positive `D`
or negative `b`, produces a numeric result. -/
noncomputable def calculate_numerical_aperture (D b : ℝ) : Option (ℝ × ℝ) :=
  if b = 0 then none
  else
    some (Real.arctan (D / (2 * b)) * (180 / Real.pi),
          Real.sin (Real.arctan (D / (2 * b))))

/-- Modelled from the spec, section 4.1: for valid inputs the calculator
returns the half-angle `θ = arctan(D / (2b))` converted to degrees together
with `NA = sin θ`.  Stated separately so that the code's behaviour can be
compared against the spec's formula. -/
noncomputable def spec_numerical_aperture (D b : ℝ) : ℝ × ℝ :=
  (Real.arctan (D / (2 * b)) * (180 / Real.pi),
   Real.sin (Real.arctan (D / (2 * b))))

end Sim1

namespace Sim8

/-- Fibre-catalog entry, the numeric fields of one `fiber_types` record in
sim8.py lines 8-39 (the description string is presentation-only). -/
structure FiberParams where
  attenuation_coeff : ℚ
  base_bending_loss : ℚ
  ideal_bend_radius : ℚ

/-- sim8.py lines 9-14, the G.652D catalog entry. -/
def G652D : FiberParams := ⟨0.20, 0.10, 5.0⟩

/-- sim8.py lines 15-20, the G.657A catalog entry. -/
def G657A : FiberParams := ⟨0.18, 0.05, 3.0⟩

/-- sim8.py lines 21-26, the G.655 catalog entry. -/
def G655 : FiberParams := ⟨0.22, 0.15, 5.0⟩

/-- sim8.py lines 27-32, the G.652C catalog entry. -/
def G652C : FiberParams := ⟨0.22, 0.12, 5.0⟩

/-- sim8.py lines 33-38, the G.657B catalog entry. -/
def G657B : FiberParams := ⟨0.18, 0.03, 2.5⟩

/-- sim8.py line 42, input current in µA. -/
def I_in : ℚ := 1000.0

/-- sim8.py line 44, default number of turns for simulations. -/
def default_turns : ℚ := 5

/-- sim8.py line 45, bend angle in degrees. -/
def bend_angle : ℚ := 90.0

/-- sim8.py line 46, reference temperature in °C. -/
def room_temperature : ℚ := 25.0

/-- sim8.py line 47, temperature loss coefficient in dB/km/°C. -/
def temp_coefficient : ℚ := 0.0002

/-- sim8.py line 48, noise standard deviation as a fraction of `I_out`. -/
def noise_std : ℚ := 0.02

/-- Translated from sim8.py lines 62-64: empirical bending loss
`baseline * (ideal / bend_radius) * (bend_angle_deg / 90.0)`. -/
def bending_loss (baseline ideal bend_radius bend_angle_deg : ℚ) : ℚ :=
  baseline * (ideal / bend_radius) * (bend_angle_deg / 90.0)

/-- The deterministic total loss computed inside `simulate_output_current`,
sim8.py lines 68-72: attenuation plus total bending loss plus temperature
loss, in dB. -/
def simulate_output_current_loss (fiber_length bend_radius ambient_temp
    attenuation_coeff base_bending_loss ideal_bend_radius n_turns : ℚ) : ℚ :=
  attenuation_coeff * fiber_length
    + n_turns * bending_loss base_bending_loss ideal_bend_radius bend_radius bend_angle
    + temp_coefficient * |ambient_temp - room_temperature| * fiber_length

/-- Translated from sim8.py lines 66-76 (`simulate_output_current`): returns
the pair `(I_out + noise, total_loss)` where
`I_out = I_in * 10 ** (-total_loss / 10)` and the noise draw is
`np.random.normal(0, noise_std * I_out)`, modelled as
`apply_noise I_out noise_std z` with `z` the standard-normal sample. -/
noncomputable def simulate_output_current (fiber_length bend_radius ambient_temp
    attenuation_coeff base_bending_loss ideal_bend_radius n_turns : ℚ)
    (z : ℝ) : ℝ × ℚ :=
  let total_loss := simulate_output_current_loss fiber_length bend_radius
    ambient_temp attenuation_coeff base_bending_loss ideal_bend_radius n_turns
  let I_out : ℝ := (I_in : ℝ) * (10 : ℝ) ^ (-(total_loss : ℝ) / 10)
  (apply_noise I_out (noise_std : ℝ) z, total_loss)

/-- The value list `np.linspace(a, b, num)` used by the sweep drivers in
sim8.py lines 109 and 156: `num` evenly spaced points from `a` to `b`
inclusive. -/
def linspace (a b : ℚ) (num : ℕ) : List ℚ :=
  (List.range num).map (fun (i : ℕ) => a + (b - a) * (i : ℚ) / ((num : ℚ) - 1))

/-- Translated from sim8.py lines 84-118 (`run_length_simulation`, numeric
part): after the entry fields parse, the function unconditionally builds
`np.linspace(length_start, length_end, 100)` and calls
`simulate_output_current` on every point, collecting
`(L, (I_out_noisy, total_loss))` triples.  `draws i` is the noise sample of
the i-th loop iteration.  No range validation of any kind is performed. -/
noncomputable def run_length_simulation (length_start length_end bend_radius
    ambient_temp attenuation_coeff base_bending_loss ideal_bend_radius : ℚ)
    (draws : ℕ → ℝ) : List (ℚ × ℝ × ℚ) :=
  (linspace length_start length_end 100).mapIdx (fun i L =>
    (L, simulate_output_current L bend_radius ambient_temp attenuation_coeff
      base_bending_loss ideal_bend_radius default_turns (draws i)))

/-- The integer list `np.arange(a, b + 1)` used by sim8.py line 207. -/
def arange (a b : ℤ) : List ℤ :=
  (List.range (b + 1 - a).toNat).map (fun (i : ℕ) => a + (i : ℤ))

/-- Translated from sim8.py lines 207-213 (`run_turns_simulation`, numeric
part): one `(n, total_loss)` sample for every integer turn count in
`np.arange(turn_from, turn_to + 1)`, all other loss-law inputs held fixed.
Only the deterministic loss component is recorded here; the noisy current
component factors through `simulate_output_current` exactly as in the length
sweep. -/
def run_turns_simulation (fixed_length bend_radius ambient_temp
    attenuation_coeff base_bending_loss ideal_bend_radius : ℚ)
    (turn_from turn_to : ℤ) : List (ℤ × ℚ) :=
  (arange turn_from turn_to).map (fun n =>
    (n, simulate_output_current_loss fixed_length bend_radius ambient_temp
      attenuation_coeff base_bending_loss ideal_bend_radius (n : ℚ)))

end Sim8

namespace Sim2

/-- sim2.py line 38, attenuation coefficient in dB/km. -/
def attenuation_coeff : ℚ := 0.00385

/-- sim2.py line 39, base bending loss in dB. -/
def base_bending_loss : ℚ := 0.2

/-- sim2.py line 40, number of bends. -/
def number_of_bends : ℚ := 5

/-- sim2.py line 41, bend angle in degrees. -/
def bend_angle : ℚ := 90.0

/-- sim2.py line 42, ideal bending radius in cm. -/
def ideal_bend_radius : ℚ := 10.0

/-- sim2.py line 62, reference temperature in °C. -/
def room_temperature : ℚ := 25.0

/-- sim2.py line 63, temperature loss coefficient in dB/km/°C. -/
def temp_coefficient : ℚ := 0.0002

/-- sim2.py line 37, input current in µA. -/
def I_in : ℚ := 1000.0

/-- Translated from sim2.py lines 44-59 (`bending_loss`). -/
def bending_loss (bend_radius bend_angle_deg : ℚ) : ℚ :=
  base_bending_loss * (ideal_bend_radius / bend_radius) * (bend_angle_deg / 90.0)

/-- The deterministic total loss computed inside sim2.py's
`simulate_output_current`, lines 79-90. -/
def total_loss (fiber_length bend_radius ambient_temp : ℚ) : ℚ :=
  attenuation_coeff * fiber_length
    + number_of_bends * bending_loss bend_radius bend_angle
    + temp_coefficient * |ambient_temp - room_temperature| * fiber_length

/-- Translated from sim2.py lines 65-99 (`simulate_output_current`): the pair
`(I_out_noisy, total_loss)` with `I_out = I_in * 10 ** (-total_loss / 10)`
and Gaussian measurement noise of relative standard deviation `noise_std`. -/
noncomputable def simulate_output_current (fiber_length bend_radius
    ambient_temp noise_std : ℚ) (z : ℝ) : ℝ × ℚ :=
  let tl := total_loss fiber_length bend_radius ambient_temp
  let I_out : ℝ := (I_in : ℝ) * (10 : ℝ) ^ (-(tl : ℝ) / 10)
  (apply_noise I_out (noise_std : ℝ) z, tl)

end Sim2

namespace Sim3

/-- sim3.py line 8, attenuation coefficient in dB/km. -/
def attenuation_coeff : ℚ := 0.00385

/-- sim3.py line 7, fibre length in km. -/
def fiber_length : ℚ := 5.0

/-- sim3.py line 9, reference temperature in °C. -/
def room_temp : ℚ := 25.0

/-- sim3.py line 10, operating temperature in °C. -/
def ambient_temp : ℚ := 30.0

/-- sim3.py line 11, temperature loss coefficient in dB/km/°C. -/
def temp_coefficient : ℚ := 0.0002

/-- sim3.py line 12, fixed number of bends along the fibre. -/
def number_of_bends : ℕ := 5

/-- sim3.py line 13, ideal bend radius in cm. -/
def ideal_bend_radius : ℚ := 10.0

/-- sim3.py line 14, base bending loss in dB for a 90° bend at the ideal
radius. -/
def base_bending_loss : ℚ := 0.2

/-- Translated from sim3.py lines 17-23 (`random_bending_loss`): the
bend-radius draw `np.random.normal(loc=5.0, scale=0.5)` is taken as the
argument `radius_draw`, clamped from below to 1.0 cm by
`max(bend_radius, 1.0)`, and the per-event loss is
`base_bending_loss * (ideal_bend_radius / bend_radius)`. -/
def random_bending_loss (radius_draw : ℚ) : ℚ :=
  base_bending_loss * (ideal_bend_radius / max radius_draw 1.0)

/-- The fixed attenuation-plus-temperature loss term of one trial, the first
and third summands of sim3.py lines 28-34. -/
def fixed_loss : ℚ :=
  attenuation_coeff * fiber_length
    + temp_coefficient * |ambient_temp - room_temp| * fiber_length

/-- Translated from sim3.py lines 26-37 (`simulate_ray`), the total-loss
component: attenuation, plus the sum of `number_of_bends` per-event bending
losses (each fed by its own radius draw `draws i`), plus the temperature
term. -/
def simulate_ray_loss (draws : ℕ → ℚ) : ℚ :=
  attenuation_coeff * fiber_length
    + Finset.sum (Finset.range number_of_bends) (fun i => random_bending_loss (draws i))
    + temp_coefficient * |ambient_temp - room_temp| * fiber_length

/-- Translated from sim3.py lines 26-37 (`simulate_ray`): the returned pair
`(I_out, total_loss)` with `I_out = I_in * 10 ** (-total_loss / 10)` and
`I_in = 1000.0` (sim3.py line 5). -/
noncomputable def simulate_ray (draws : ℕ → ℚ) : ℝ × ℚ :=
  ((1000.0 : ℝ) * (10 : ℝ) ^ (-(simulate_ray_loss draws : ℝ) / 10),
   simulate_ray_loss draws)

end Sim3

namespace Sim4

/-- Cumulative sums of a list of per-step losses starting from accumulator
`acc`: the `loss_profile.append(total_loss_dB)` accumulation of sim4.py
lines 26-49, with one entry recorded after every step. -/
def cum_losses : List ℚ → ℚ → List ℚ
  | [], _ => []
  | x :: xs, acc => (acc + x) :: cum_losses xs (acc + x)

/-- The loss added at step `s` of sim4.py lines 32-47: deterministic
attenuation and temperature loss over one step of length `dz`, plus, when
`s` is one of the randomly chosen event indices, the Gaussian bending-loss
draw `draws s` (the sample of `np.random.normal(loc=0.2, scale=0.05)` at
that step). -/
def step_loss (attenuation_coeff temp_coefficient ambient_temp room_temp
    dz : ℚ) (events : List ℕ) (draws : ℕ → ℚ) (s : ℕ) : ℚ :=
  attenuation_coeff * dz
    + temp_coefficient * |ambient_temp - room_temp| * dz
    + (if s ∈ events then draws s else 0)

/-- Translated from sim4.py lines 25-49 (`hybrid_simulation`, the
`loss_profile` it returns): the fibre is split into `num_steps` steps of
length `dz = fiber_length_km / num_steps`, and the profile records the
cumulative loss after every step.  `events` is the outcome of the random
event-index choice of line 30 and `draws s` the bending draw applied at an
event step `s`. -/
def hybrid_loss_profile (fiber_length_km : ℚ) (num_steps : ℕ)
    (events : List ℕ) (draws : ℕ → ℚ)
    (ambient_temp room_temp attenuation_coeff temp_coefficient : ℚ) : List ℚ :=
  cum_losses
    ((List.range num_steps).map
      (step_loss attenuation_coeff temp_coefficient ambient_temp room_temp
        (fiber_length_km / (num_steps : ℚ)) events draws))
    0

end Sim4

namespace Sim12

/-- Translated from sim12.py lines 40-42 (`marcuse_bending_loss`):
`A * np.exp(-B * (R / MFD))`. -/
noncomputable def marcuse_bending_loss (A B R MFD : ℝ) : ℝ :=
  A * Real.exp (-B * (R / MFD))

/-- Translated from sim12.py lines 44-46 (`empirical_bending_loss`):
`base_loss * (ideal_radius / bend_radius) * (bend_angle_deg / 90.0)`. -/
def empirical_bending_loss (base_loss ideal_radius bend_radius
    bend_angle_deg : ℚ) : ℚ :=
  base_loss * (ideal_radius / bend_radius) * (bend_angle_deg / 90.0)

end Sim12

namespace Sim13

/-- sim13.py line 81, reference temperature in °C. -/
def room_temperature : ℝ := 25.0

/-- sim13.py line 82, temperature loss coefficient, set to zero. -/
def temp_coefficient : ℝ := 0.0000

/-- sim13.py line 83, noise standard deviation, set to zero (the noiseless
catalog variant). -/
def noise_std : ℝ := 0.00

/-- The bending-loss value computed by sim13.py lines 106-109 when the
exponent base `n1**2 - n2**2` is non-negative:
`0.5 * (pi*a*n1/wavelength)**2 *
 exp(-(4/3) * (R_m/a) * (n1**2 - n2**2)**(3/2))` with
`R_m = bend_radius_cm * 0.01`. -/
noncomputable def bending_loss_val (core_radius n1 n2 wavelength
    bend_radius_cm : ℝ) : ℝ :=
  0.5 * (Real.pi * core_radius * n1 / wavelength) ^ 2 *
    Real.exp (-(4 / 3) * (bend_radius_cm * 0.01 / core_radius) *
      ((n1 ^ 2 - n2 ^ 2) ^ ((3 : ℝ) / 2)))

/-- Translated from sim13.py lines 90-109 (`bending_loss`).  The Python body
performs no validation whatsoever: when `n1**2 - n2**2 < 0` the fractional
power `(n1**2 - n2**2) ** (3/2)` silently evaluates to a complex number and
the function returns a non-real value instead of raising any error.  The
`none` branch marks exactly that silently-produced non-real outcome; `some`
carries the real result of the guarded case. -/
noncomputable def bending_loss (core_radius n1 n2 wavelength
    bend_radius_cm : ℝ) : Option ℝ :=
  if 0 ≤ n1 ^ 2 - n2 ^ 2 then
    some (bending_loss_val core_radius n1 n2 wavelength bend_radius_cm)
  else none

/-- Translated from sim13.py lines 111-123 (`simulate_total_loss`):
attenuation plus `n_turns` bending losses plus the (zero-coefficient)
temperature term, with the measurement noise `np.random.normal(0,
noise_std * total_loss)` applied via `apply_noise`; propagates the non-real
marker of `bending_loss`. -/
noncomputable def simulate_total_loss (fiber_length bend_radius_cm
    ambient_temp attenuation_coeff core_radius n1 n2 wavelength
    n_turns : ℝ) (z : ℝ) : Option ℝ :=
  (bending_loss core_radius n1 n2 wavelength bend_radius_cm).map
    (fun loss_per_bend =>
      apply_noise
        (attenuation_coeff * fiber_length + n_turns * loss_per_bend
          + temp_coefficient * |ambient_temp - room_temperature| * fiber_length)
        noise_std z)

end Sim13

/-! ## Helper lemmas -/

/-- The sim8 composite loss is strictly increasing in the turn count whenever
the per-bend loss is positive. -/
lemma sim8_loss_lt_loss_of_turns_lt (L R T att base ideal : ℚ)
    (hR : 0 < R) (hbase : 0 < base) (hideal : 0 < ideal) {m n : ℚ}
    (hmn : m < n) :
    Sim8.simulate_output_current_loss L R T att base ideal m
      < Sim8.simulate_output_current_loss L R T att base ideal n := by
  have hK : 0 < Sim8.bending_loss base ideal R Sim8.bend_angle := by
    simp only [Sim8.bending_loss, Sim8.bend_angle]
    positivity
  simp only [Sim8.simulate_output_current_loss]
  have := mul_lt_mul_of_pos_right hmn hK
  linarith

/-- Cumulative sums of a list of non-negative summands form a non-decreasing
chain, from any starting accumulator. -/
lemma cum_losses_chain : ∀ xs : List ℚ, (∀ x ∈ xs, 0 ≤ x) → ∀ acc : ℚ,
    List.Chain' (· ≤ ·) (Sim4.cum_losses xs acc) := by
  intro xs
  induction xs with
  | nil => intro _ acc; simp [Sim4.cum_losses]
  | cons x xs ih =>
    intro h acc
    rw [Sim4.cum_losses]
    refine List.chain'_cons'.mpr
      ⟨?_, ih (fun y hy => h y (List.mem_cons_of_mem _ hy)) (acc + x)⟩
    intro y hy
    cases xs with
    | nil => simp [Sim4.cum_losses] at hy
    | cons z zs =>
      rw [Sim4.cum_losses] at hy
      simp only [List.head?_cons, Option.mem_def, Option.some.injEq] at hy
      have hz : 0 ≤ z := h z (by simp)
      linarith [hy]

/-- A linspace always has exactly `num` entries, whatever the bounds are. -/
lemma linspace_length (a b : ℚ) (num : ℕ) :
    (Sim8.linspace a b num).length = num := by
  rw [Sim8.linspace, List.length_map, List.length_range]

/-! ## Claim theorems -/

/-- C1.  For the G.652D spec (attenuation 0.20 dB/km, base bending loss
0.10 dB, ideal bend radius 5.0 cm) with length 10 km, bend radius 5.0 cm,
5 turns and ambient temperature equal to the 25 °C reference, the
deterministic loss of `simulate_output_current` is exactly 2.5 dB: bending
term 0.5 dB, attenuation 2.0 dB, temperature term 0. -/
theorem total_loss_concrete_G652D :
    Sim8.simulate_output_current_loss 10 5.0 25 Sim8.G652D.attenuation_coeff
        Sim8.G652D.base_bending_loss Sim8.G652D.ideal_bend_radius 5 = 2.5
    ∧ (5 : ℚ) * Sim8.bending_loss Sim8.G652D.base_bending_loss
        Sim8.G652D.ideal_bend_radius 5.0 Sim8.bend_angle = 0.5
    ∧ Sim8.G652D.attenuation_coeff * 10 = 2
    ∧ Sim8.temp_coefficient * |(25 : ℚ) - Sim8.room_temperature| * 10 = 0 := by
  refine ⟨?_, ?_, ?_, ?_⟩ <;>
    norm_num [Sim8.simulate_output_current_loss, Sim8.bending_loss,
      Sim8.G652D, Sim8.bend_angle, Sim8.temp_coefficient,
      Sim8.room_temperature]

/-- C8.  Applying the measurement-noise model with relative standard
deviation 0 returns the input exactly, for every signal and every draw;
sim13's `noise_std` is that noiseless configuration, so its
`simulate_total_loss` is independent of the noise sample. -/
theorem apply_noise_zero_id :
    (∀ signal z : ℝ, apply_noise signal 0 z = signal)
    ∧ Sim13.noise_std = 0
    ∧ ∀ (L R T att a n1 n2 wl nt z z' : ℝ),
        Sim13.simulate_total_loss L R T att a n1 n2 wl nt z
          = Sim13.simulate_total_loss L R T att a n1 n2 wl nt z' := by
  refine ⟨fun signal z => by simp [apply_noise], by norm_num [Sim13.noise_std], ?_⟩
  intro L R T att a n1 n2 wl nt z z'
  simp only [Sim13.simulate_total_loss, Sim13.noise_std, apply_noise]
  norm_num

/-- C10.  The total-loss component returned by the deterministic loss
computation is the same for any two measurement-noise draws: the draw
perturbs only the linear output-current component, in both the sim8 and the
sim2 variant. -/
theorem total_loss_noise_independent :
    (∀ (L R T att base ideal n : ℚ) (z z' : ℝ),
        (Sim8.simulate_output_current L R T att base ideal n z).2
          = (Sim8.simulate_output_current L R T att base ideal n z').2)
    ∧ ∀ (L R T ns : ℚ) (z z' : ℝ),
        (Sim2.simulate_output_current L R T ns z).2
          = (Sim2.simulate_output_current L R T ns z').2 :=
  ⟨fun _ _ _ _ _ _ _ _ _ => rfl, fun _ _ _ _ _ _ => rfl⟩

/-- C5.  sim13's exponential bending model performs no `n1 > n2` validation:
invoked with `n1 = 1.0 < n2 = 1.2` (and the catalog core radius and
wavelength) it reaches the fractional power of the negative exponent base
`n1² - n2²` and silently yields a non-real value — the `none` branch of the
embedding — instead of rejecting the spec with an InvalidFiberSpec error. -/
theorem marcuse13_silent_nonreal :
    Sim13.bending_loss 4.1e-6 1.0 1.2 1.55e-6 5 = none
    ∧ ¬ (0 ≤ (1.0 : ℝ) ^ 2 - 1.2 ^ 2) := by
  constructor
  · rw [Sim13.bending_loss, if_neg]
    norm_num
  · norm_num

/-- C6.  sim8's length sweep performs no range validation: for the invalid
request `start = 10 > end = 1` it still computes and returns the complete
100-sample sequence (over the descending linspace), for every noise draw
sequence, instead of failing with an InvalidRange error before computing. -/
theorem length_sweep_no_range_validation (draws : ℕ → ℝ) :
    (Sim8.run_length_simulation 10 1 3 30 Sim8.G652D.attenuation_coeff
        Sim8.G652D.base_bending_loss Sim8.G652D.ideal_bend_radius
        draws).length = 100 := by
  rw [Sim8.run_length_simulation, List.length_mapIdx, linspace_length]

/-- C7 counterexample.  The numerical-aperture calculator does not reject the
non-positive spot diameter `D = -1` (with screen distance `b = 100`): it
returns a numeric result rather than failing with an InvalidParameter
error. -/
theorem numerical_aperture_accepts_nonpositive :
    (Sim1.calculate_numerical_aperture (-1) 100).isSome = true := by
  rw [Sim1.calculate_numerical_aperture, if_neg (by norm_num : (100 : ℝ) ≠ 0)]
  rfl

/-- C7 amended.  The calculator validates nothing: for every screen distance
`b ≠ 0` — the sign of `D` and `b` unchecked — it returns exactly the spec's
formula `(degrees (arctan (D / (2b))), sin (arctan (D / (2b))))`, and its
only failure mode is the zero division at `b = 0`. -/
theorem numerical_aperture_formula (D b : ℝ) (hb : b ≠ 0) :
    Sim1.calculate_numerical_aperture D b
        = some (Sim1.spec_numerical_aperture D b)
    ∧ Sim1.calculate_numerical_aperture D 0 = none := by
  constructor
  · rw [Sim1.calculate_numerical_aperture, if_neg hb]
    rfl
  · rw [Sim1.calculate_numerical_aperture, if_pos rfl]

/-- C7 witness, at the spec's concrete scenario `D = 1.15`, `b = 100`. -/
theorem numerical_aperture_formula_witness :
    Sim1.calculate_numerical_aperture 1.15 100
        = some (Sim1.spec_numerical_aperture 1.15 100)
    ∧ Sim1.calculate_numerical_aperture 1.15 0 = none :=
  numerical_aperture_formula 1.15 100 (by norm_num)

/-- C9.  In the sim3 Monte Carlo simulator the effective bend radius is
floored at 1.0 cm, so every per-event bending loss lies in
`(0, base_bending_loss * ideal_bend_radius / 1.0]` — which is `(0, 2]` dB
for the built-in parameters — and every trial's total loss is at least the
fixed attenuation-plus-temperature term, whatever the radius draws are. -/
theorem monte_carlo_bend_loss_bounds :
    (∀ d : ℚ, 0 < Sim3.random_bending_loss d
        ∧ Sim3.random_bending_loss d
            ≤ Sim3.base_bending_loss * Sim3.ideal_bend_radius / 1.0)
    ∧ Sim3.base_bending_loss * Sim3.ideal_bend_radius / 1.0 = 2
    ∧ ∀ draws : ℕ → ℚ, Sim3.fixed_loss ≤ Sim3.simulate_ray_loss draws := by
  have hpos : ∀ d : ℚ, 0 < Sim3.random_bending_loss d := by
    intro d
    simp only [Sim3.random_bending_loss, Sim3.base_bending_loss,
      Sim3.ideal_bend_radius]
    positivity
  refine ⟨fun d => ⟨hpos d, ?_⟩,
    by norm_num [Sim3.base_bending_loss, Sim3.ideal_bend_radius],
    fun draws => ?_⟩
  · have h1 : (1 : ℚ) ≤ max d 1.0 := le_max_of_le_right (by norm_num)
    have hd : (10.0 : ℚ) / max d 1.0 ≤ 10.0 := div_le_self (by norm_num) h1
    simp only [Sim3.random_bending_loss, Sim3.base_bending_loss,
      Sim3.ideal_bend_radius]
    linarith
  · have hs : 0 ≤ Finset.sum (Finset.range Sim3.number_of_bends)
        (fun i => Sim3.random_bending_loss (draws i)) :=
      Finset.sum_nonneg fun i _ => (hpos _).le
    simp only [Sim3.fixed_loss, Sim3.simulate_ray_loss]
    linarith

/-- C2.  With all bending parameters positive and `n2 < n1` for the
exponential models, the bending loss is strictly decreasing in the bend
radius: for `0 < R₁ < R₂` the loss at `R₂` is strictly below the loss at
`R₁`, simultaneously for sim12's empirical inverse-radius model, sim12's
Marcuse exponential model, and sim13's physical exponential model (whose
guarded branch is the value actually returned when `n1 > n2`). -/
theorem bending_loss_strict_anti
    (base ideal angle R1 R2 : ℚ) (A B MFD a n1 n2 wl r1 r2 : ℝ)
    (hR1 : 0 < R1) (hR12 : R1 < R2) (hbase : 0 < base) (hideal : 0 < ideal)
    (hangle : 0 < angle) (hr1 : 0 < r1) (hr12 : r1 < r2) (hA : 0 < A)
    (hB : 0 < B) (hMFD : 0 < MFD) (ha : 0 < a) (hwl : 0 < wl)
    (hn2 : 0 < n2) (hn12 : n2 < n1) :
    Sim12.empirical_bending_loss base ideal R2 angle
        < Sim12.empirical_bending_loss base ideal R1 angle
    ∧ Sim12.marcuse_bending_loss A B r2 MFD
        < Sim12.marcuse_bending_loss A B r1 MFD
    ∧ Sim13.bending_loss a n1 n2 wl r1
        = some (Sim13.bending_loss_val a n1 n2 wl r1)
    ∧ Sim13.bending_loss_val a n1 n2 wl r2
        < Sim13.bending_loss_val a n1 n2 wl r1 := by
  have hbase13 : 0 < n1 ^ 2 - n2 ^ 2 := by nlinarith
  have hn1 : 0 < n1 := hn2.trans hn12
  refine ⟨?_, ?_, ?_, ?_⟩
  · have key : ideal / R2 < ideal / R1 := div_lt_div_of_pos_left hideal hR1 hR12
    have h90 : (0 : ℚ) < angle / 90.0 := by positivity
    simp only [Sim12.empirical_bending_loss]
    exact mul_lt_mul_of_pos_right (mul_lt_mul_of_pos_left key hbase) h90
  · have hfrac : r1 / MFD < r2 / MFD := (div_lt_div_iff_of_pos_right hMFD).mpr hr12
    have hexp : Real.exp (-B * (r2 / MFD)) < Real.exp (-B * (r1 / MFD)) := by
      apply Real.exp_lt_exp.mpr
      have := mul_lt_mul_of_pos_left hfrac hB
      linarith
    exact mul_lt_mul_of_pos_left hexp hA
  · rw [Sim13.bending_loss, if_pos hbase13.le]
  · have hp : 0 < (n1 ^ 2 - n2 ^ 2) ^ ((3 : ℝ) / 2) :=
      Real.rpow_pos_of_pos hbase13 _
    have hpre : 0 < 0.5 * (Real.pi * a * n1 / wl) ^ 2 := by positivity
    have h1 : r1 * 0.01 / a < r2 * 0.01 / a :=
      (div_lt_div_iff_of_pos_right ha).mpr (by linarith)
    have hinner : -(4 / 3 : ℝ) * (r2 * 0.01 / a) * ((n1 ^ 2 - n2 ^ 2) ^ ((3 : ℝ) / 2))
        < -(4 / 3 : ℝ) * (r1 * 0.01 / a) * ((n1 ^ 2 - n2 ^ 2) ^ ((3 : ℝ) / 2)) := by
      nlinarith [mul_lt_mul_of_pos_right h1 hp]
    simp only [Sim13.bending_loss_val]
    exact mul_lt_mul_of_pos_left (Real.exp_lt_exp.mpr hinner) hpre

/-- C2 witness, at the concrete radii `R₁ = 1 < R₂ = 2` with unit-sized
positive parameters and `n1 = 2 > n2 = 1`. -/
theorem bending_loss_strict_anti_witness :
    Sim12.empirical_bending_loss 1 1 2 90 < Sim12.empirical_bending_loss 1 1 1 90
    ∧ Sim12.marcuse_bending_loss 1 1 2 1 < Sim12.marcuse_bending_loss 1 1 1 1
    ∧ Sim13.bending_loss 1 2 1 1 1 = some (Sim13.bending_loss_val 1 2 1 1 1)
    ∧ Sim13.bending_loss_val 1 2 1 1 2 < Sim13.bending_loss_val 1 2 1 1 1 :=
  bending_loss_strict_anti 1 1 90 1 2 1 1 1 1 2 1 1 1 2
    (by norm_num) (by norm_num) (by norm_num) (by norm_num) (by norm_num)
    (by norm_num) (by norm_num) (by norm_num) (by norm_num) (by norm_num)
    (by norm_num) (by norm_num) (by norm_num) (by norm_num)

/-- C3.  A turn-count sweep over `[start, end]` with `1 ≤ start ≤ end` and
all other loss-law inputs fixed at positive values returns exactly
`end - start + 1` samples, the i-th sample belonging to turn count
`start + i` (ascending order), with strictly increasing total loss. -/
theorem turns_sweep_count_mono (L R T att base ideal : ℚ) (a b : ℤ)
    (h1 : 1 ≤ a) (hab : a ≤ b) (hL : 0 < L) (hR : 0 < R) (hatt : 0 < att)
    (hbase : 0 < base) (hideal : 0 < ideal) :
    (Sim8.run_turns_simulation L R T att base ideal a b).length
        = (b - a).toNat + 1
    ∧ (∀ i (hi : i < (Sim8.run_turns_simulation L R T att base ideal a b).length),
        ((Sim8.run_turns_simulation L R T att base ideal a b).get ⟨i, hi⟩).1
          = a + (i : ℤ))
    ∧ List.Pairwise (fun p q => p.2 < q.2)
        (Sim8.run_turns_simulation L R T att base ideal a b) := by
  refine ⟨?_, ?_, ?_⟩
  · simp only [Sim8.run_turns_simulation, Sim8.arange, List.length_map,
      List.length_range]
    omega
  · intro i hi
    simp only [Sim8.run_turns_simulation, Sim8.arange, List.get_eq_getElem,
      List.getElem_map, List.getElem_range]
  · rw [Sim8.run_turns_simulation, Sim8.arange, List.pairwise_map,
      List.pairwise_map]
    refine (List.pairwise_lt_range _).imp ?_
    intro i j hij
    refine sim8_loss_lt_loss_of_turns_lt L R T att base ideal hR hbase hideal ?_
    push_cast
    have : (i : ℚ) < (j : ℚ) := by exact_mod_cast hij
    linarith

/-- C3 witness: the sweep over turn counts 1 to 20 (spec's concrete
scenario) has exactly 20 samples and strictly increasing losses. -/
theorem turns_sweep_count_mono_witness :
    (Sim8.run_turns_simulation 5 3 30 0.2 0.1 5.0 1 20).length
        = ((20 : ℤ) - 1).toNat + 1
    ∧ List.Pairwise (fun p q => p.2 < q.2)
        (Sim8.run_turns_simulation 5 3 30 0.2 0.1 5.0 1 20) :=
  ⟨(turns_sweep_count_mono 5 3 30 0.2 0.1 5.0 1 20 (by norm_num) (by norm_num)
      (by norm_num) (by norm_num) (by norm_num) (by norm_num) (by norm_num)).1,
   (turns_sweep_count_mono 5 3 30 0.2 0.1 5.0 1 20 (by norm_num) (by norm_num)
      (by norm_num) (by norm_num) (by norm_num) (by norm_num) (by norm_num)).2.2⟩

/-- C4 counterexample.  The hybrid simulator's cumulative-loss trace is not
non-decreasing for every draw sequence: with zero attenuation and
temperature coefficients over two steps and a bend event at step 1 whose
Gaussian draw is −1 (a possible Gaussian sample), the trace decreases at the
event step. -/
theorem hybrid_trace_decreasing_cex :
    ¬ List.Chain' (· ≤ ·)
      (Sim4.hybrid_loss_profile 5 2 [1] (fun _ => -1) 30 25 0 0) := by
  have hprof : Sim4.hybrid_loss_profile 5 2 [1] (fun _ => -1) 30 25 0 0
      = [0, -1] := by
    norm_num [Sim4.hybrid_loss_profile, Sim4.cum_losses, Sim4.step_loss,
      List.range_succ]
  intro h
  rw [hprof] at h
  have h01 := (List.chain'_cons.mp h).1
  norm_num at h01

/-- C4 amended.  The cumulative-loss trace of the hybrid simulator is
monotonically non-decreasing at every step — including event steps —
provided the attenuation and temperature coefficients and the fibre length
are non-negative and every stochastic event draw is non-negative (the
deterministic-only case `events = []` included); a negative Gaussian event
draw can break this, as the counterexample shows. -/
theorem hybrid_trace_monotone_of_nonneg_draws (fiber_length_km : ℚ)
    (num_steps : ℕ) (events : List ℕ) (draws : ℕ → ℚ)
    (ambient_temp room_temp attenuation_coeff temp_coefficient : ℚ)
    (hL : 0 ≤ fiber_length_km) (hatt : 0 ≤ attenuation_coeff)
    (htc : 0 ≤ temp_coefficient) (hdraws : ∀ s ∈ events, 0 ≤ draws s) :
    List.Chain' (· ≤ ·)
      (Sim4.hybrid_loss_profile fiber_length_km num_steps events draws
        ambient_temp room_temp attenuation_coeff temp_coefficient) := by
  rw [Sim4.hybrid_loss_profile]
  apply cum_losses_chain
  intro x hx
  simp only [List.mem_map, List.mem_range] at hx
  obtain ⟨s, -, rfl⟩ := hx
  simp only [Sim4.step_loss]
  have hdz : (0 : ℚ) ≤ fiber_length_km / (num_steps : ℚ) :=
    div_nonneg hL (Nat.cast_nonneg _)
  have h1 : (0 : ℚ) ≤ attenuation_coeff * (fiber_length_km / (num_steps : ℚ)) :=
    mul_nonneg hatt hdz
  have h2 : (0 : ℚ) ≤ temp_coefficient * |ambient_temp - room_temp|
      * (fiber_length_km / (num_steps : ℚ)) :=
    mul_nonneg (mul_nonneg htc (abs_nonneg _)) hdz
  split_ifs with hs
  · have h3 := hdraws s hs
    linarith
  · linarith

/-- C4 witness: a three-step run with the sim4 default coefficients and a
non-negative event draw yields a non-decreasing trace. -/
theorem hybrid_trace_monotone_witness :
    List.Chain' (· ≤ ·)
      (Sim4.hybrid_loss_profile 5 3 [1] (fun _ => 0.2) 30 25 0.00385 0.0002) :=
  hybrid_trace_monotone_of_nonneg_draws 5 3 [1] (fun _ => 0.2) 30 25
    0.00385 0.0002 (by norm_num) (by norm_num) (by norm_num)
    (fun s _ => by norm_num)
